import Mathlib

/-!
Verification of the opord-canvas tactical-task pipeline.

This file gives a shallow embedding, in Lean 4, of the core operations of the
backend: the embedding generator and extraction pipeline of
`backend/scripts/extract_tactical_tasks.py`, the knowledge-store operations of
`backend/app/crud/tactical_task.py`, the recognition engine of
`backend/app/services/tactical_analysis_service.py`, the orchestrator of
`backend/app/services/opord_processing_service.py`, and the analysis and OPORD
routers of `backend/app/routers/analysis.py` and `backend/app/routers/opord.py`.

Modelling conventions:
  * Python floats are modelled as rationals.
  * The database table of tactical tasks is modelled as a list of records in
    insertion order; SQLAlchemy `filter_by(...).first()` is `List.find?`, and
    `ORDER BY ... LIMIT k` is a sort followed by `List.take k`, with the
    row order PostgreSQL leaves unspecified (equal sort keys) exposed as an
    explicit oracle.
  * Calls to the external generative / embedding capabilities are modelled by
    explicit oracle arguments describing the outcome of the call (success with
    a value, or the several failure modes the Python code catches).  A Python
    function that catches every exception is embedded as a total Lean function
    over all oracle behaviours.
-/

/-! ### Data model

`TacticalTask` mirrors the SQLAlchemy model in `app/models/tactical_task.py`
(columns `id, name, definition, page_number, image_path, embedding,
source_reference, related_figures`).  The autoincrement primary key is modelled
by the insert operation assigning the current table length. -/

structure TacticalTask where
  id : ℕ
  name : String
  definition : String
  page_number : String
  image_path : Option String
  embedding : List ℚ
  source_reference : String
  related_figures : List String
deriving DecidableEq, Repr

/-- The payload dictionary built by `process_page` and validated through
`TacticalTaskCreate` (`app/models/schemas.py`) before `save_task_to_db`. -/
structure TaskData where
  name : String
  definition : String
  page_number : String
  source_reference : String
  related_figures : List String
  image_path : Option String
  embedding : List ℚ
deriving DecidableEq, Repr

/-! ### Embedding generator (`generate_embedding`, extract_tactical_tasks.py L44-67)

The outcome of `genai.embed_content(...)['embedding']` is an oracle:
`some l` when the call returns the vector `l`, `none` when the call (or the
dictionary access) raises, which the Python code catches. -/

def target_dimension : ℕ := 1536

def generate_embedding (capResult : Option (List ℚ)) : List ℚ :=
  match capResult with
  | some embedding_list =>
      if embedding_list.length ≠ target_dimension then
        if embedding_list.length > target_dimension then
          embedding_list.take target_dimension
        else
          embedding_list ++ List.replicate (target_dimension - embedding_list.length) 0
      else embedding_list
  | none => List.replicate target_dimension 0

/-! ### Knowledge store operations (`app/crud/tactical_task.py`)

The table is a list of records in insertion order. -/

/-- `get_tactical_task_by_name` (crud L19-20):
`db.query(TacticalTask).filter(TacticalTask.name == name).first()`. -/
def get_tactical_task_by_name (db : List TacticalTask) (name : String) :
    Option TacticalTask :=
  db.find? (fun t => t.name == name)

/-- `get_all_tactical_task_names` (crud L47-50):
`db.query(TacticalTask.name).distinct().all()`. -/
def get_all_tactical_task_names (db : List TacticalTask) : List String :=
  (db.map (fun t => t.name)).dedup

/-! ### Upsert (`save_task_to_db`, extract_tactical_tasks.py L215-238) -/

/-- The field assignments of the update branch of `save_task_to_db`
(L222-227): definition, page_number, source_reference, related_figures,
image_path and embedding are overwritten; id and name are untouched. -/
def applyTaskUpdate (td : TaskData) (t : TacticalTask) : TacticalTask :=
  { t with
    definition := td.definition
    page_number := td.page_number
    source_reference := td.source_reference
    related_figures := td.related_figures
    image_path := td.image_path
    embedding := td.embedding }

/-- `TacticalTask(**task_data)` in the insert branch (L231); the database
assigns the autoincrement id, modelled as the current table length. -/
def newTaskRecord (td : TaskData) (id : ℕ) : TacticalTask :=
  { id := id
    name := td.name
    definition := td.definition
    page_number := td.page_number
    image_path := td.image_path
    embedding := td.embedding
    source_reference := td.source_reference
    related_figures := td.related_figures }

/-- Apply `f` to the first element satisfying `p`, leaving the rest unchanged:
the effect of mutating the record returned by `filter_by(...).first()`. -/
def updateFirst (p : TacticalTask → Bool) (f : TacticalTask → TacticalTask) :
    List TacticalTask → List TacticalTask
  | [] => []
  | t :: ts => if p t then f t :: ts else t :: updateFirst p f ts

/-- `save_task_to_db` (L215-238), successful-commit path: look up an existing
record by name; update its mutable fields if found, else insert a new row. -/
def save_task_to_db (td : TaskData) (db : List TacticalTask) : List TacticalTask :=
  if (db.find? (fun t => t.name == td.name)).isSome then
    updateFirst (fun t => t.name == td.name) (applyTaskUpdate td) db
  else
    db ++ [newTaskRecord td db.length]

/-! ### Nearest-neighbour search (`search_similar_tasks`, crud L25-28)

`select(TacticalTask).order_by(TacticalTask.embedding.cosine_distance(e)).limit(k)`.
pgvector's cosine distance of vectors `a, b` is `1 - <a,b> / (|a| * |b|)`.
The query names no secondary sort key, so the order of rows at equal distance
is whatever the execution happens to produce; it is modelled by an explicit
row-order oracle below. -/

/-- Componentwise inner product of two vectors. -/
def dotList (a b : List ℚ) : ℚ := (a.zipWith (· * ·) b).sum

/-- pgvector `cosine_distance`. -/
noncomputable def cosine_distance (a b : List ℚ) : ℝ :=
  1 - ((dotList a b : ℚ) : ℝ) /
    (Real.sqrt ((dotList a a : ℚ) : ℝ) * Real.sqrt ((dotList b b : ℚ) : ℝ))

/-- The ordering key of the `ORDER BY` clause: not-larger cosine distance to
the query embedding.  This is the only sort key crud L27 specifies. -/
def distLe (e : List ℚ) (p q : TacticalTask) : Prop :=
  cosine_distance e p.embedding ≤ cosine_distance e q.embedding

/-- A bare `ORDER BY embedding.cosine_distance(e)` constrains only the
distance key; PostgreSQL leaves the relative order of rows with equal keys
unspecified — the planner may deliver the rows in any order.  The unspecified
part is made an explicit oracle: `scan` is the row order the planner happens
to produce (any permutation of the table), and the output is `scan` stably
sorted by the distance key alone.  Every output consistent with ascending
distance arises from some scan order (in particular from itself). -/
noncomputable def order_by_cosine_distance (e : List ℚ)
    (scan : List TacticalTask) : List TacticalTask :=
  letI := Classical.decRel (distLe e)
  scan.insertionSort (distLe e)

/-- `search_similar_tasks` (crud L25-28), with the planner's row order made
explicit as `scan`. -/
noncomputable def search_similar_tasks (scan : List TacticalTask)
    (embedding : List ℚ) (lim : ℕ) : List TacticalTask :=
  (order_by_cosine_distance embedding scan).take lim

/-! ### Recognition engine
(`identify_and_retrieve_tactical_tasks`, app/services/tactical_analysis_service.py L25-137) -/

/-- One element of the JSON list parsed from the generative reply: either not a
dict with the keys `task_name`, `start_index`, `end_index` (L105-106), or a
well-formed candidate. -/
inductive NerCandidate where
  | malformed
  | wellFormed (task_name : String) (start_index : Int) (end_index : Int)
deriving DecidableEq, Repr

/-- Outcome of the generative call and of parsing its reply, as distinguished
by the Python control flow: `generative_model is None` (L36-38), an exception
from the API call or from `response.text` (L87-89, L132-135), a
`json.JSONDecodeError` (L130-131), a parsed value that is not a list
(L100-102), or a parsed list of candidates. -/
inductive GenResponse where
  | unavailable
  | apiFailure
  | parseFailure
  | nonList
  | entities (es : List NerCandidate)
deriving DecidableEq, Repr

/-- One enriched result dict appended at L120-125: the raw name the capability
produced, the span, and a snapshot of the resolved store record. -/
structure Mention where
  task_name : String
  start_index : Int
  end_index : Int
  details : TacticalTask
deriving DecidableEq, Repr

/-- The body of one loop iteration (L104-128): skip malformed candidates, look
the raw name up in the store, emit an enriched mention when it resolves. -/
def processEntity (db : List TacticalTask) : NerCandidate → List Mention
  | .malformed => []
  | .wellFormed n s e =>
      match get_tactical_task_by_name db n with
      | some t => [{ task_name := n, start_index := s, end_index := e, details := t }]
      | none => []

/-- The enrichment loop with a failure oracle: `failAt = some i` means an
unexpected exception is raised while processing candidate `i` (e.g. a database
error); the surrounding `except` then returns the list accumulated so far. -/
def nerLoop (db : List TacticalTask) (failAt : Option ℕ) :
    List NerCandidate → ℕ → List Mention
  | [], _ => []
  | c :: cs, i =>
      if failAt = some i then []
      else processEntity db c ++ nerLoop db failAt cs (i + 1)

/-- `identify_and_retrieve_tactical_tasks` (L25-137). -/
def identify_and_retrieve_tactical_tasks (db : List TacticalTask)
    (resp : GenResponse) (failAt : Option ℕ) : List Mention :=
  match resp with
  | .unavailable => []
  | .apiFailure => []
  | .parseFailure => []
  | .nonList => []
  | .entities es => nerLoop db failAt es 0

/-! ### Extraction engine
(`extract_tasks_with_gemini` L69-136 and `process_page` L168-213 of
extract_tactical_tasks.py) -/

/-- One element of the JSON list parsed from the extraction reply: either not
a dict, or a dict in which each of the four expected keys may be present or
missing (a present key holds a value of the expected type). -/
inductive ExtractCandidate where
  | notDict
  | dict (name : Option String) (definition : Option String)
      (figure_references : Option (List String))
      (document_page_number : Option String)
deriving DecidableEq, Repr

/-- Outcome of the generative extraction call, mirroring `GenResponse`. -/
inductive ExtractResponse where
  | apiFailure
  | parseFailure
  | nonList
  | items (cs : List ExtractCandidate)
deriving DecidableEq, Repr

/-- The structural check of L125: `isinstance(task, dict)` and all of the keys
`name`, `definition`, `figure_references`, `document_page_number` present. -/
def validCandidate : ExtractCandidate → Bool
  | .notDict => false
  | .dict n d f p => n.isSome && d.isSome && f.isSome && p.isSome

/-- `extract_tasks_with_gemini` (L69-136): every failure mode returns `[]`;
otherwise the structurally valid candidates are kept. -/
def extract_tasks_with_gemini : ExtractResponse → List ExtractCandidate
  | .apiFailure => []
  | .parseFailure => []
  | .nonList => []
  | .items cs => cs.filter validCandidate

/-- Python truthiness of an optional string: `None` and `""` are falsy. -/
def truthyS : Option String → Bool
  | none => false
  | some s => !(s == "")

/-- The falsiness check of `process_page` L190: drop the candidate when
`name`, `definition` or `document_page_number` is missing or empty. -/
def keepCandidate : ExtractCandidate → Bool
  | .notDict => false
  | .dict n d _ p => truthyS n && truthyS d && truthyS p

/-- The record built at L203-211 for a surviving candidate: upper-cased name,
embedding of the definition via `generate_embedding` (embedding-capability
oracle `embedCap`), and an image looked up for the first figure reference via
`extract_and_save_image` (oracle `imageCap`, `none` when no image is found or
the extraction fails, L138-166). -/
def taskFromCandidate (embedCap : String → Option (List ℚ))
    (imageCap : String → Option String) : ExtractCandidate → TaskData
  | .notDict =>
      { name := "", definition := "", page_number := "", source_reference := "FM 3-90",
        related_figures := [], image_path := none,
        embedding := generate_embedding (embedCap "") }
  | .dict n d figs p =>
      let fr := figs.getD []
      { name := (n.getD "").toUpper
        definition := d.getD ""
        page_number := p.getD ""
        source_reference := "FM 3-90"
        related_figures := fr
        image_path := match fr with
          | [] => none
          | ref :: _ => imageCap ref
        embedding := generate_embedding (embedCap (d.getD "")) }

/-- The per-candidate step of the loop at L184-211. -/
def processCandidate (embedCap : String → Option (List ℚ))
    (imageCap : String → Option String) (c : ExtractCandidate) : List TaskData :=
  if keepCandidate c then [taskFromCandidate embedCap imageCap c] else []

/-- Python `str.strip()`: drop whitespace from both ends. -/
def pyStrip (s : String) : String :=
  String.mk (((s.data.dropWhile Char.isWhitespace).reverse.dropWhile
    Char.isWhitespace).reverse)

/-- `process_page` (L168-213): empty page text short-circuits (L171-173);
otherwise the structurally valid candidates from `extract_tasks_with_gemini`
are processed one by one. -/
def process_page (pageText : String) (resp : ExtractResponse)
    (embedCap : String → Option (List ℚ)) (imageCap : String → Option String) :
    List TaskData :=
  if pyStrip pageText == "" then []
  else ((extract_tasks_with_gemini resp).map (processCandidate embedCap imageCap)).flatten

/-! ### Orchestrator
(`run_tactical_analysis_and_store_results`, app/services/opord_processing_service.py L9-69) -/

/-- The persisted `analysis_results` JSON column of an OPORD: `NULL`, a stored
list of mentions, or the structured error marker written at L62-65
(`{"error": "Analysis failed", "details": str(e)}`). -/
inductive AnalysisField where
  | unset
  | results (ms : List Mention)
  | errorMarker (details : String)
deriving DecidableEq, Repr

/-- The OPORD row (`app/models/opord.py`), restricted to the fields the
modelled flows read or write. -/
structure Opord where
  id : ℕ
  title : String
  content : String
  analysis_results : AnalysisField
  user_id : ℕ
deriving DecidableEq, Repr

/-- Observable outcome of one orchestrator run: the persisted value of the
document's `analysis_results` column (`none` when no document was found, so
nothing was written), how many `db.commit()` calls were attempted, and whether
the recognition engine was invoked. -/
structure OrchestratorOutcome where
  stored : Option AnalysisField
  commitAttempts : ℕ
  invokedEngine : Bool
deriving DecidableEq, Repr

/-- `run_tactical_analysis_and_store_results` (L9-69).

Oracles: `ner content` is the outcome of the recognition-engine call on the
document's content (`.error e` models an unexpected exception with message
`e`, caught at L58); `commitExc i` is the outcome of the `i`-th `db.commit()`
attempt of this run (`some msg` models the commit raising, which the code
catches and which leaves the persisted state unchanged after the rollback).
The function is total over every oracle behaviour: no exception propagates to
the caller. -/
def run_tactical_analysis_and_store_results (doc : Option Opord)
    (ner : String → Except String (List Mention))
    (commitExc : ℕ → Option String) : OrchestratorOutcome :=
  match doc with
  | none => { stored := none, commitAttempts := 0, invokedEngine := false }
  | some o =>
      if o.content == "" then
        -- L37-46: no content, store an empty result list
        match commitExc 0 with
        | none => { stored := some (.results []), commitAttempts := 1, invokedEngine := false }
        | some _ => { stored := some o.analysis_results, commitAttempts := 1,
                      invokedEngine := false }
      else
        match ner o.content with
        | .ok rs =>
            -- L48-57: store the analysis results
            match commitExc 0 with
            | none => { stored := some (.results rs), commitAttempts := 1,
                        invokedEngine := true }
            | some e1 =>
                -- L58-69: rollback, write the error marker, retry the commit once
                match commitExc 1 with
                | none => { stored := some (.errorMarker e1), commitAttempts := 2,
                            invokedEngine := true }
                | some _ => { stored := some o.analysis_results, commitAttempts := 2,
                              invokedEngine := true }
        | .error e =>
            -- L58-69 reached directly from a failing analysis call
            match commitExc 0 with
            | none => { stored := some (.errorMarker e), commitAttempts := 1,
                        invokedEngine := true }
            | some _ => { stored := some o.analysis_results, commitAttempts := 1,
                          invokedEngine := true }

/-! ### OPORD router scheduling (`app/routers/opord.py`) -/

/-- Whether `create_opord` (L24-39) schedules the background analysis:
`if db_opord and db_opord.content`. -/
def create_opord_schedules (doc : Option Opord) : Bool :=
  match doc with
  | some o => !(o.content == "")
  | none => false

/-- `update_opord` (L55-74), restricted to the content field and the
scheduling decision.  `payloadContent` is the `content` field of the
`OPORDUpdate` payload (`none` when the field was not set, per
`model_dump(exclude_unset=True)` in the crud layer).  Returns `none` on a
missing document (HTTP 404), otherwise the updated row together with whether
the background analysis was scheduled: `if opord.content and db_opord.content`. -/
def update_opord (payloadContent : Option String) (stored : Option Opord) :
    Option (Opord × Bool) :=
  match stored with
  | none => none
  | some o =>
      let updated := { o with content := payloadContent.getD o.content }
      some (updated, truthyS payloadContent && !(updated.content == ""))

/-! ### Analysis endpoint (`analyze_text_for_tactical_tasks`, app/routers/analysis.py L21-52) -/

/-- What the endpoint hands back to the HTTP layer. -/
inductive RouterResponse where
  | ok (ms : List Mention)
  | httpError (code : ℕ)
deriving DecidableEq, Repr

/-- The keyword parameters `identify_and_retrieve_tactical_tasks` accepts
(service L25-29; the former `known_task_names` parameter was removed there). -/
def identify_service_params : List String := ["db", "text"]

/-- The keyword arguments the router passes at L42-46. -/
def analysis_router_call_kwargs : List String := ["db", "text", "known_task_names"]

/-- `analyze_text_for_tactical_tasks` (router L21-52).  A Python call whose
keyword arguments include one the callee does not accept raises `TypeError`
before the callee body runs; the router's `except` turns any such exception
into an HTTP 500.  The boolean in the result records whether the service body
(and hence the generative capability) was actually invoked. -/
def analyze_text_for_tactical_tasks (db : List TacticalTask) (text : String)
    (resp : GenResponse) (failAt : Option ℕ) : RouterResponse × Bool :=
  if text == "" || pyStrip text == "" then (.httpError 400, false)
  else if get_all_tactical_task_names db == [] then (.ok [], false)
  else if analysis_router_call_kwargs.all (fun k => identify_service_params.contains k) then
    (.ok (identify_and_retrieve_tactical_tasks db resp failAt), true)
  else
    (.httpError 500, false)

/-! ### Concrete sample values used by witnesses and counterexamples -/

/-- A stored record for the task SEIZE, as the extraction pipeline would
produce it (names are upper-cased before storage). -/
def seizeRecord : TacticalTask :=
  { id := 0
    name := "SEIZE"
    definition := "A tactical mission task in which a unit takes possession of a designated area."
    page_number := "B-11"
    image_path := none
    embedding := List.replicate target_dimension 0
    source_reference := "FM 3-90"
    related_figures := [] }

/-- A sample upsert payload with a name not present in `[seizeRecord]`. -/
def occupyData : TaskData :=
  { name := "OCCUPY"
    definition := "A tactical mission task that involves moving a friendly force into an area."
    page_number := "B-9"
    source_reference := "FM 3-90"
    related_figures := []
    image_path := none
    embedding := List.replicate target_dimension 0 }

/-- The record the insert branch builds from `occupyData` on a table of one
row.  Its embedding is identical to `seizeRecord`'s, so the two records are
at equal cosine distance from every query embedding. -/
def occupyRecord : TacticalTask := newTaskRecord occupyData 1

/-- An extraction candidate carrying `name`, `definition` and
`document_page_number` but missing the `figure_references` key. -/
def noFigRefsCandidate : ExtractCandidate :=
  .dict (some "SEIZE") (some "To take possession of a designated area.") none (some "B-11")

/-- An extraction candidate carrying all four keys with non-empty values. -/
def fullCandidate : ExtractCandidate :=
  .dict (some "Occupy") (some "To move into an area.") (some ["Figure B-2"]) (some "B-9")

/-- A sample OPORD row with non-empty content. -/
def sampleOpord : Opord :=
  { id := 7
    title := "OPORD 1"
    content := "The platoon will SEIZE the bridge."
    analysis_results := .unset
    user_id := 3 }

/-! ## Theorems -/

/-- C1: for every outcome of the underlying embedding capability,
`generate_embedding` returns a vector of exactly `D = 1536` components: a
successful capability vector is padded with zeros (when shorter) or truncated
(when longer) to length `D`, and a capability failure yields the zero vector
of length `D`, with no exception propagating (the embedding is total). -/
theorem generate_embedding_dimension_spec (cap : Option (List ℚ)) :
    (generate_embedding cap).length = target_dimension ∧
    (cap = none → generate_embedding cap = List.replicate target_dimension 0) ∧
    (∀ l, cap = some l →
      generate_embedding cap =
        l.take target_dimension ++ List.replicate (target_dimension - l.length) 0) := by
  refine ⟨?_, ?_, ?_⟩
  · cases cap with
    | none => simp [generate_embedding]
    | some l =>
      by_cases h : l.length = target_dimension
      · simp [generate_embedding, h]
      · by_cases hgt : l.length > target_dimension
        · simp [generate_embedding, h, hgt]
          omega
        · simp [generate_embedding, h, hgt]
          omega
  · rintro rfl
    rfl
  · rintro l rfl
    by_cases h : l.length = target_dimension
    · have h1 : l.take target_dimension = l := List.take_of_length_le (le_of_eq h)
      simp [generate_embedding, h, h1]
    · by_cases hgt : l.length > target_dimension
      · have h1 : target_dimension - l.length = 0 := by omega
        simp [generate_embedding, h, hgt, h1]
      · have h1 : l.take target_dimension = l :=
          List.take_of_length_le (by omega)
        simp [generate_embedding, h, hgt, h1]

/-- Witness for C1 at a concrete capability outcome: a three-component
vector is padded with zeros up to the target dimensionality. -/
theorem generate_embedding_dimension_spec_witness :
    generate_embedding (some [1, 2, 3]) =
      [(1 : ℚ), 2, 3].take target_dimension ++
        List.replicate (target_dimension - [(1 : ℚ), 2, 3].length) 0 :=
  (generate_embedding_dimension_spec (some [1, 2, 3])).2.2 [1, 2, 3] rfl

/-- A run of the enrichment loop interrupted by an unexpected exception
returns a prefix of the uninterrupted run. -/
theorem nerLoop_interrupted_prefix (db : List TacticalTask) (failAt : Option ℕ) :
    ∀ (es : List NerCandidate) (i : ℕ),
      ∃ rest, nerLoop db none es i = nerLoop db failAt es i ++ rest := by
  intro es
  induction es with
  | nil => exact fun i => ⟨[], rfl⟩
  | cons c cs ih =>
    intro i
    by_cases h : failAt = some i
    · exact ⟨processEntity db c ++ nerLoop db none cs (i + 1), by simp [nerLoop, h]⟩
    · obtain ⟨rest, hrest⟩ := ih (i + 1)
      exact ⟨rest, by simp [nerLoop, h, hrest]⟩

/-- C2: the recognition engine always returns a (possibly empty) list and
never raises: an unavailable generative capability, a reply that fails to
parse as JSON, or a parsed value that is not a list all yield the empty list,
and a run interrupted by any other failure yields a prefix of (i.e. the
partial accumulation of) the uninterrupted run's list. -/
theorem identify_tasks_total_spec (db : List TacticalTask) (resp : GenResponse)
    (failAt : Option ℕ) :
    ((resp = .unavailable ∨ resp = .apiFailure ∨ resp = .parseFailure ∨ resp = .nonList) →
      identify_and_retrieve_tactical_tasks db resp failAt = []) ∧
    ∃ rest, identify_and_retrieve_tactical_tasks db resp none =
      identify_and_retrieve_tactical_tasks db resp failAt ++ rest := by
  constructor
  · rintro (rfl | rfl | rfl | rfl) <;> rfl
  · cases resp with
    | unavailable => exact ⟨[], rfl⟩
    | apiFailure => exact ⟨[], rfl⟩
    | parseFailure => exact ⟨[], rfl⟩
    | nonList => exact ⟨[], rfl⟩
    | entities es => exact nerLoop_interrupted_prefix db failAt es 0

/-- Witness for C2 at a concrete input: a non-JSON generative reply yields the
empty list. -/
theorem identify_tasks_total_spec_witness :
    identify_and_retrieve_tactical_tasks [seizeRecord] .parseFailure none = [] :=
  (identify_tasks_total_spec [seizeRecord] .parseFailure none).1
    (Or.inr (Or.inr (Or.inl rfl)))

/-- `applyTaskUpdate` never changes the lookup key. -/
theorem applyTaskUpdate_name (td : TaskData) (t : TacticalTask) :
    (applyTaskUpdate td t).name = t.name := rfl

/-- Overwriting the mutable fields twice with the same payload is the same as
overwriting them once. -/
theorem applyTaskUpdate_idem (td : TaskData) (t : TacticalTask) :
    applyTaskUpdate td (applyTaskUpdate td t) = applyTaskUpdate td t := rfl

/-- A freshly inserted record already carries the payload's fields. -/
theorem applyTaskUpdate_newTaskRecord (td : TaskData) (n : ℕ) :
    applyTaskUpdate td (newTaskRecord td n) = newTaskRecord td n := rfl

theorem updateFirst_idem (p : TacticalTask → Bool) (f : TacticalTask → TacticalTask)
    (hp : ∀ t, p (f t) = p t) (hf : ∀ t, f (f t) = f t) :
    ∀ l, updateFirst p f (updateFirst p f l) = updateFirst p f l := by
  intro l
  induction l with
  | nil => rfl
  | cons t ts ih =>
    by_cases h : p t = true
    · simp [updateFirst, h, hp, hf]
    · simp [updateFirst, h, ih]

theorem find?_isSome_updateFirst (p : TacticalTask → Bool) (f : TacticalTask → TacticalTask)
    (hp : ∀ t, p (f t) = p t) :
    ∀ l, ((updateFirst p f l).find? p).isSome = (l.find? p).isSome := by
  intro l
  induction l with
  | nil => rfl
  | cons t ts ih =>
    cases hpt : p t with
    | true => simp [updateFirst, hpt, List.find?_cons, hp]
    | false => simp [updateFirst, hpt, List.find?_cons, ih]

theorem updateFirst_append_of_none (p : TacticalTask → Bool) (f : TacticalTask → TacticalTask)
    (l1 l2 : List TacticalTask) (h : ∀ t ∈ l1, p t = false) :
    updateFirst p f (l1 ++ l2) = l1 ++ updateFirst p f l2 := by
  induction l1 with
  | nil => rfl
  | cons t ts ih =>
    have ht : p t = false := h t (by simp)
    simp [updateFirst, ht, ih (fun x hx => h x (by simp [hx]))]

theorem updateFirst_getElem?_of_no_match (p : TacticalTask → Bool)
    (f : TacticalTask → TacticalTask) :
    ∀ (l : List TacticalTask) (i : ℕ) (h : i < l.length),
      p (l.get ⟨i, h⟩) = false → (updateFirst p f l)[i]? = some (l.get ⟨i, h⟩) := by
  intro l
  induction l with
  | nil => intro i h; simp at h
  | cons t ts ih =>
    intro i h hi
    cases i with
    | zero =>
      simp only [List.get] at hi
      simp [updateFirst, hi]
    | succ n =>
      cases hpt : p t with
      | true =>
        simp only [updateFirst, hpt, if_pos rfl]
        have hn : n < ts.length := by simp at h; omega
        simp [List.getElem?_eq_getElem hn]
      | false =>
        simp only [updateFirst, hpt, Bool.false_eq_true, if_false]
        simpa using ih n (by simpa using h) (by simpa using hi)

theorem updateFirst_getElem?_first_match (p : TacticalTask → Bool)
    (f : TacticalTask → TacticalTask) :
    ∀ (l : List TacticalTask) (j : ℕ) (hj : j < l.length),
      p (l.get ⟨j, hj⟩) = true →
      (∀ (i : ℕ) (hi : i < j), p (l.get ⟨i, Nat.lt_trans hi hj⟩) = false) →
      (updateFirst p f l)[j]? = some (f (l.get ⟨j, hj⟩)) := by
  intro l
  induction l with
  | nil => intro j hj; simp at hj
  | cons t ts ih =>
    intro j hj hpj hbefore
    cases j with
    | zero =>
      simp only [List.get] at hpj
      simp [updateFirst, hpj]
    | succ n =>
      have hpt : p t = false := by
        have := hbefore 0 (Nat.succ_pos n)
        simpa using this
      simp only [updateFirst, hpt, Bool.false_eq_true, if_false]
      have := ih n (by simpa using hj) (by simpa using hpj)
        (fun i hi => by simpa using hbefore (i + 1) (by omega))
      simpa using this

/-- C3: `save_task_to_db` is an idempotent upsert.  Applying it twice with the
same payload yields the same stored table as applying it once; when no record
carries the payload's name a new record is inserted at the end; records whose
name differs from the payload's keep their position and value; and the first
record carrying the payload's name has all its mutable fields (definition,
page label, source reference, figure references, image path, embedding)
overwritten with the payload's values, its id and name untouched. -/
theorem save_task_to_db_upsert_spec (td : TaskData) (db : List TacticalTask) :
    save_task_to_db td (save_task_to_db td db) = save_task_to_db td db ∧
    ((∀ t ∈ db, t.name ≠ td.name) →
      save_task_to_db td db = db ++ [newTaskRecord td db.length]) ∧
    (∀ (i : ℕ) (h : i < db.length), (db.get ⟨i, h⟩).name ≠ td.name →
      (save_task_to_db td db)[i]? = some (db.get ⟨i, h⟩)) ∧
    (∀ (j : ℕ) (hj : j < db.length), (db.get ⟨j, hj⟩).name = td.name →
      (∀ (i : ℕ) (hi : i < j), (db.get ⟨i, Nat.lt_trans hi hj⟩).name ≠ td.name) →
      (save_task_to_db td db)[j]? = some (applyTaskUpdate td (db.get ⟨j, hj⟩))) := by
  have hp : ∀ t, (fun t : TacticalTask => t.name == td.name) (applyTaskUpdate td t)
      = (fun t : TacticalTask => t.name == td.name) t := fun t => rfl
  refine ⟨?_, ?_, ?_, ?_⟩
  · by_cases h : ((db.find? (fun t => t.name == td.name)).isSome : Prop)
    · have h1 : save_task_to_db td db =
          updateFirst (fun t => t.name == td.name) (applyTaskUpdate td) db := by
        simp [save_task_to_db, h]
      rw [h1, save_task_to_db,
        if_pos (by rw [find?_isSome_updateFirst _ _ hp]; exact h)]
      exact updateFirst_idem _ _ hp (fun t => applyTaskUpdate_idem td t) db
    · have hnone : db.find? (fun t => t.name == td.name) = none := by
        cases hfind : db.find? (fun t => t.name == td.name) with
        | none => rfl
        | some t => rw [hfind] at h; simp at h
      have h1 : save_task_to_db td db = db ++ [newTaskRecord td db.length] := by
        simp [save_task_to_db, hnone]
      have hall : ∀ t ∈ db, (fun t : TacticalTask => t.name == td.name) t = false := by
        intro t ht
        have := List.find?_eq_none.mp hnone t ht
        simpa using this
      rw [h1, save_task_to_db, if_pos ?_]
      · rw [updateFirst_append_of_none _ _ _ _ hall]
        have hone : updateFirst (fun t => t.name == td.name) (applyTaskUpdate td)
            [newTaskRecord td db.length] = [newTaskRecord td db.length] := by
          simp [updateFirst, newTaskRecord, applyTaskUpdate]
        rw [hone]
      · rw [List.find?_append, hnone]
        simp [List.find?, newTaskRecord]
  · intro h
    have hnone : db.find? (fun t => t.name == td.name) = none :=
      List.find?_eq_none.mpr (fun t ht => by simpa using h t ht)
    simp [save_task_to_db, hnone]
  · intro i h hne
    by_cases hf : ((db.find? (fun t => t.name == td.name)).isSome : Prop)
    · have h1 : save_task_to_db td db =
          updateFirst (fun t => t.name == td.name) (applyTaskUpdate td) db := by
        simp [save_task_to_db, hf]
      rw [h1]
      exact updateFirst_getElem?_of_no_match _ _ db i h (by simpa using hne)
    · have hnone : db.find? (fun t => t.name == td.name) = none := by
        cases hfind : db.find? (fun t => t.name == td.name) with
        | none => rfl
        | some t => rw [hfind] at hf; simp at hf
      have h1 : save_task_to_db td db = db ++ [newTaskRecord td db.length] := by
        simp [save_task_to_db, hnone]
      rw [h1, List.getElem?_append_left h]
      exact List.getElem?_eq_getElem h
  · intro j hj hname hbefore
    have hf : ((db.find? (fun t => t.name == td.name)).isSome : Prop) := by
      rw [List.find?_isSome]
      exact ⟨db.get ⟨j, hj⟩, List.get_mem db j hj, by simpa using hname⟩
    have h1 : save_task_to_db td db =
        updateFirst (fun t => t.name == td.name) (applyTaskUpdate td) db := by
      simp [save_task_to_db, hf]
    rw [h1]
    exact updateFirst_getElem?_first_match _ _ db j hj (by simpa using hname)
      (fun i hi => by simpa using hbefore i hi)

/-- Witness for C3 at concrete inputs: inserting a payload whose name is
absent appends one record, and repeating the upsert is a no-op. -/
theorem save_task_to_db_upsert_spec_witness :
    save_task_to_db occupyData [seizeRecord] = [seizeRecord] ++ [newTaskRecord occupyData 1] ∧
    save_task_to_db occupyData (save_task_to_db occupyData [seizeRecord]) =
      save_task_to_db occupyData [seizeRecord] :=
  ⟨(save_task_to_db_upsert_spec occupyData [seizeRecord]).2.1
      (by intro t ht; simp only [List.mem_singleton] at ht; subst ht; decide),
    (save_task_to_db_upsert_spec occupyData [seizeRecord]).1⟩

/-- C4 counterexample: the recognition engine does not upper-case candidate
names before resolving them.  With a store holding the record named `SEIZE`
(names are upper-cased at ingestion), a structurally valid candidate named
`seize` would resolve after upper-casing — the store lookup of
`"seize".toUpper` succeeds — yet the engine returns the empty list, because it
looks up the raw lower-case name. -/
theorem identify_tasks_no_normalization_cex :
    identify_and_retrieve_tactical_tasks [seizeRecord]
        (.entities [.wellFormed "seize" 17 22]) none = [] ∧
    "seize".data.map Char.toUpper = "SEIZE".data ∧
    get_tactical_task_by_name [seizeRecord] "SEIZE" = some seizeRecord := by
  refine ⟨rfl, by decide, ?_⟩
  simp [get_tactical_task_by_name, List.find?, seizeRecord]

/-- C4 as amended: a candidate that passes structural validation is resolved
against the store using its name exactly as the generative capability produced
it — no upper-casing and no empty-name rejection happens — and the lookup is
exact (case-sensitive) on that raw key: the candidate is emitted exactly when
some stored record carries that exact name, and the emitted mention carries
the raw name, the original span and such a record. -/
theorem identify_tasks_raw_lookup_spec (db : List TacticalTask) (n : String)
    (s e : Int) :
    (processEntity db (.wellFormed n s e) ≠ [] ↔ ∃ t ∈ db, t.name = n) ∧
    (∀ m ∈ processEntity db (.wellFormed n s e),
      m.task_name = n ∧ m.start_index = s ∧ m.end_index = e ∧
        m.details ∈ db ∧ m.details.name = n) ∧
    (∀ es, identify_and_retrieve_tactical_tasks db (.entities es) none =
      (es.map (processEntity db)).flatten) := by
  refine ⟨?_, ?_, ?_⟩
  · constructor
    · intro h
      cases hfind : get_tactical_task_by_name db n with
      | none => simp [processEntity, hfind] at h
      | some t =>
        refine ⟨t, List.mem_of_find?_eq_some hfind, ?_⟩
        have := List.find?_some hfind
        simpa using this
    · rintro ⟨t, ht, hn⟩
      cases hfind : get_tactical_task_by_name db n with
      | none =>
        have := List.find?_eq_none.mp hfind t ht
        simp [hn] at this
      | some t2 => simp [processEntity, hfind]
  · intro m hm
    cases hfind : get_tactical_task_by_name db n with
    | none => simp [processEntity, hfind] at hm
    | some t =>
      simp only [processEntity, hfind, List.mem_singleton] at hm
      subst hm
      have hname : t.name = n := by simpa using List.find?_some hfind
      exact ⟨rfl, rfl, rfl, List.mem_of_find?_eq_some hfind, hname⟩
  · intro es
    show nerLoop db none es 0 = (es.map (processEntity db)).flatten
    have : ∀ (cs : List NerCandidate) (i : ℕ),
        nerLoop db none cs i = (cs.map (processEntity db)).flatten := by
      intro cs
      induction cs with
      | nil => intro i; rfl
      | cons c cs ih => intro i; simp [nerLoop, ih (i + 1)]
    exact this es 0

/-- Witness for C4-as-amended at concrete inputs: the candidate named `SEIZE`
resolves in a store holding `SEIZE` and its emitted mention carries the raw
name, span and record. -/
theorem identify_tasks_raw_lookup_spec_witness :
    (processEntity [seizeRecord] (.wellFormed "SEIZE" 17 22) ≠ [] ↔
      ∃ t ∈ [seizeRecord], t.name = "SEIZE") ∧
    ∀ m ∈ processEntity [seizeRecord] (.wellFormed "SEIZE" 17 22),
      m.task_name = "SEIZE" ∧ m.start_index = 17 ∧ m.end_index = 22 ∧
        m.details ∈ [seizeRecord] ∧ m.details.name = "SEIZE" :=
  ⟨(identify_tasks_raw_lookup_spec [seizeRecord] "SEIZE" 17 22).1,
    (identify_tasks_raw_lookup_spec [seizeRecord] "SEIZE" 17 22).2.1⟩

/-- C5 counterexample: ties are not broken by insertion order.  The table, in
insertion order, is `[seizeRecord, occupyRecord]`; the two records have equal
cosine distance to the query (identical embeddings).  The planner may deliver
the rows as `[occupyRecord, seizeRecord]` — a permutation of the table — and
the bare `ORDER BY` then returns exactly that: an output ascending in
distance whose tied records are in reverse insertion order. -/
theorem search_similar_tasks_tie_order_cex :
    List.Perm [occupyRecord, seizeRecord] [seizeRecord, occupyRecord] ∧
    cosine_distance [] seizeRecord.embedding =
      cosine_distance [] occupyRecord.embedding ∧
    search_similar_tasks [occupyRecord, seizeRecord] [] 2 =
      [occupyRecord, seizeRecord] ∧
    [occupyRecord, seizeRecord] ≠ [seizeRecord, occupyRecord] := by
  refine ⟨List.Perm.swap seizeRecord occupyRecord [], rfl, ?_, by decide⟩
  have hle : distLe [] occupyRecord seizeRecord := le_of_eq rfl
  unfold search_similar_tasks order_by_cosine_distance
  simp only [List.insertionSort, List.orderedInsert]
  rw [if_pos hle]
  rfl

/-- C5 as amended: for every table, query embedding, bound `k` and every row
order the planner may deliver (any permutation of the table),
`search_similar_tasks` returns at most `k` records, each of which is present
in the table, ordered by ascending cosine distance between the query and the
stored embeddings; the relative order of records at equal cosine distance is
unspecified (the query has no secondary sort key). -/
theorem search_similar_tasks_spec (db scan : List TacticalTask) (e : List ℚ)
    (k : ℕ) (hscan : List.Perm scan db) :
    (search_similar_tasks scan e k).length ≤ k ∧
    search_similar_tasks scan e k ⊆ db ∧
    (search_similar_tasks scan e k).Sorted (distLe e) := by
  letI : DecidableRel (distLe e) := Classical.decRel _
  haveI : IsTotal TacticalTask (distLe e) := ⟨fun p q => le_total _ _⟩
  haveI : IsTrans TacticalTask (distLe e) := ⟨fun p q r h1 h2 => le_trans h1 h2⟩
  have hsorted : (order_by_cosine_distance e scan).Sorted (distLe e) := by
    unfold order_by_cosine_distance
    exact List.sorted_insertionSort (distLe e) scan
  refine ⟨?_, ?_, ?_⟩
  · unfold search_similar_tasks
    rw [List.length_take]
    exact min_le_left _ _
  · intro t ht
    unfold search_similar_tasks at ht
    have h1 : t ∈ order_by_cosine_distance e scan := List.mem_of_mem_take ht
    have h2 : t ∈ scan := by
      unfold order_by_cosine_distance at h1
      exact (List.perm_insertionSort (distLe e) scan).subset h1
    exact hscan.subset h2
  · exact List.Pairwise.sublist (List.take_sublist k _) hsorted

/-- Witness for C5-as-amended at a concrete table, scan order, query and
bound. -/
theorem search_similar_tasks_spec_witness :
    (search_similar_tasks [seizeRecord] [] 5).length ≤ 5 ∧
    search_similar_tasks [seizeRecord] [] 5 ⊆ [seizeRecord] ∧
    (search_similar_tasks [seizeRecord] [] 5).Sorted (distLe []) :=
  search_similar_tasks_spec [seizeRecord] [seizeRecord] [] 5 (List.Perm.refl _)

/-- C6 counterexample: a candidate carrying `name`, `definition` and
`document_page_number` but missing the `figure_references` key is discarded by
the structural validation of `extract_tasks_with_gemini` (which requires all
four keys), so it is not carried forward — the claim that every candidate
with those three fields survives validation is false. -/
theorem process_page_missing_figrefs_cex :
    noFigRefsCandidate = .dict (some "SEIZE")
      (some "To take possession of a designated area.") none (some "B-11") ∧
    validCandidate noFigRefsCandidate = false ∧
    process_page "Appendix B text" (.items [noFigRefsCandidate])
      (fun _ => none) (fun _ => none) = [] := by
  refine ⟨rfl, rfl, ?_⟩
  decide

/-- One processing pass over the structurally valid candidates equals a
filter by the combined validity checks followed by the record builder. -/
theorem processCandidate_flatten_eq (embedCap : String → Option (List ℚ))
    (imageCap : String → Option String) :
    ∀ cs : List ExtractCandidate,
      ((cs.filter validCandidate).map (processCandidate embedCap imageCap)).flatten =
        (cs.filter (fun c => validCandidate c && keepCandidate c)).map
          (taskFromCandidate embedCap imageCap) := by
  intro cs
  induction cs with
  | nil => rfl
  | cons c cs ih =>
    cases hv : validCandidate c with
    | false => simp [hv, ih]
    | true =>
      cases hk : keepCandidate c with
      | false => simp [hv, hk, processCandidate, ih]
      | true => simp [hv, hk, processCandidate, ih]

/-- C6 as amended: on a non-blank page, the extraction pipeline keeps exactly
the candidates that are objects carrying all four keys (`name`, `definition`,
`figure_references`, `document_page_number`) whose `name`, `definition` and
`document_page_number` values are non-empty; each surviving candidate is
carried forward — in order — to the record builder (upper-cased name,
embedding of the definition, image associated to the first figure reference),
and a dropped candidate never aborts processing of the remaining ones. -/
theorem process_page_validation_spec (txt : String) (cs : List ExtractCandidate)
    (embedCap : String → Option (List ℚ)) (imageCap : String → Option String)
    (h : pyStrip txt ≠ "") :
    process_page txt (.items cs) embedCap imageCap =
      (cs.filter (fun c => validCandidate c && keepCandidate c)).map
        (taskFromCandidate embedCap imageCap) := by
  unfold process_page
  rw [if_neg (by simpa using h)]
  unfold extract_tasks_with_gemini
  exact processCandidate_flatten_eq embedCap imageCap cs

/-- Witness for C6-as-amended on a concrete page: a fully populated candidate
survives both validation layers and is carried forward. -/
theorem process_page_validation_spec_witness :
    process_page "B-9 page" (.items [fullCandidate, noFigRefsCandidate])
        (fun _ => none) (fun _ => none) =
      ([fullCandidate, noFigRefsCandidate].filter
          (fun c => validCandidate c && keepCandidate c)).map
        (taskFromCandidate (fun _ => none) (fun _ => none)) :=
  process_page_validation_spec "B-9 page" [fullCandidate, noFigRefsCandidate]
    (fun _ => none) (fun _ => none) (by decide)

/-- C7 counterexample: updating a document's content to the empty string is a
content change, but the update router schedules no background analysis
(`if opord.content and db_opord.content` is falsy), so the Orchestrator does
not run and the annotation list is not set to empty — contradicting the claim
that the Orchestrator runs whenever the content changes and Scenario 5 of the
spec. -/
theorem update_opord_blank_content_cex :
    sampleOpord.content ≠ "" ∧
    update_opord (some "") (some sampleOpord) =
      some ({ sampleOpord with content := "" }, false) := by
  constructor
  · decide
  · rfl

/-- C7 as amended: the Orchestrator is scheduled after a create only when the
created document's content is non-empty, and after an update only when both
the update payload's content and the updated document's content are
non-empty; when the Orchestrator does run on a fetched document, an empty
content makes it set the annotation field to the empty result list without
invoking the Recognition Engine, and a non-empty content makes it invoke the
engine on the full content and persist the returned list. -/
theorem orchestrator_trigger_spec (pc : Option String) (o : Opord)
    (ner : String → Except String (List Mention)) (ce : ℕ → Option String) :
    ((update_opord pc (some o)).map Prod.snd = some true ↔
      (∃ s, pc = some s ∧ s ≠ "") ∧ pc.getD o.content ≠ "") ∧
    (create_opord_schedules (some o) = true ↔ o.content ≠ "") ∧
    (o.content = "" →
      (run_tactical_analysis_and_store_results (some o) ner ce).invokedEngine = false ∧
      (ce 0 = none →
        (run_tactical_analysis_and_store_results (some o) ner ce).stored =
          some (.results []))) ∧
    (o.content ≠ "" →
      (run_tactical_analysis_and_store_results (some o) ner ce).invokedEngine = true ∧
      (∀ rs, ner o.content = .ok rs → ce 0 = none →
        (run_tactical_analysis_and_store_results (some o) ner ce).stored =
          some (.results rs))) := by
  refine ⟨?_, ?_, ?_, ?_⟩
  · cases pc with
    | none => simp [update_opord, truthyS]
    | some s =>
      by_cases hs : s = ""
      · subst hs; simp [update_opord, truthyS]
      · simp [update_opord, truthyS, hs]
  · simp [create_opord_schedules]
  · intro h
    constructor
    · cases hce : ce 0 with
      | none => simp [run_tactical_analysis_and_store_results, h, hce]
      | some msg => simp [run_tactical_analysis_and_store_results, h, hce]
    · intro hce
      simp [run_tactical_analysis_and_store_results, h, hce]
  · intro h
    have hb : (o.content == "") = false := by simpa using h
    constructor
    · cases hn : ner o.content with
      | ok rs =>
        cases hce : ce 0 with
        | none => simp [run_tactical_analysis_and_store_results, hb, hn, hce]
        | some e1 =>
          cases hce1 : ce 1 with
          | none => simp [run_tactical_analysis_and_store_results, hb, hn, hce, hce1]
          | some e2 => simp [run_tactical_analysis_and_store_results, hb, hn, hce, hce1]
      | error e =>
        cases hce : ce 0 with
        | none => simp [run_tactical_analysis_and_store_results, hb, hn, hce]
        | some msg => simp [run_tactical_analysis_and_store_results, hb, hn, hce]
    · intro rs hrs hce
      simp [run_tactical_analysis_and_store_results, hb, hrs, hce]

/-- Witness for C7-as-amended at a concrete document with non-empty content:
the run invokes the engine and persists its result list. -/
theorem orchestrator_trigger_spec_witness :
    (run_tactical_analysis_and_store_results (some sampleOpord)
        (fun _ => .ok []) (fun _ => none)).invokedEngine = true ∧
    (run_tactical_analysis_and_store_results (some sampleOpord)
        (fun _ => .ok []) (fun _ => none)).stored = some (.results []) :=
  ⟨((orchestrator_trigger_spec (some "x") sampleOpord
      (fun _ => .ok []) (fun _ => none)).2.2.2 (by decide)).1,
    ((orchestrator_trigger_spec (some "x") sampleOpord
      (fun _ => .ok []) (fun _ => none)).2.2.2 (by decide)).2 [] rfl rfl⟩

/-- C8: the orchestrator's analysis-and-store flow is total over every oracle
behaviour (every failure of the analysis call or of a commit is caught, so no
exception reaches the caller), it attempts at most two commits in any run,
and on an unexpected error it persists the structured error marker: a failing
analysis call leads to a marker write, and a failing first write is retried
exactly once — with the marker — before giving up and leaving the previously
persisted value in place. -/
theorem orchestrator_error_recovery_spec (o : Opord)
    (ner : String → Except String (List Mention)) (ce : ℕ → Option String) :
    (run_tactical_analysis_and_store_results (some o) ner ce).commitAttempts ≤ 2 ∧
    (∀ e, o.content ≠ "" → ner o.content = .error e → ce 0 = none →
      (run_tactical_analysis_and_store_results (some o) ner ce).stored =
        some (.errorMarker e)) ∧
    (∀ rs e1, o.content ≠ "" → ner o.content = .ok rs → ce 0 = some e1 →
      (run_tactical_analysis_and_store_results (some o) ner ce).commitAttempts = 2 ∧
      (ce 1 = none →
        (run_tactical_analysis_and_store_results (some o) ner ce).stored =
          some (.errorMarker e1)) ∧
      (∀ e2, ce 1 = some e2 →
        (run_tactical_analysis_and_store_results (some o) ner ce).stored =
          some o.analysis_results)) := by
  refine ⟨?_, ?_, ?_⟩
  · by_cases h : o.content = ""
    · cases hce : ce 0 with
      | none => simp [run_tactical_analysis_and_store_results, h, hce]
      | some msg => simp [run_tactical_analysis_and_store_results, h, hce]
    · have hb : (o.content == "") = false := by simpa using h
      cases hn : ner o.content with
      | ok rs =>
        cases hce : ce 0 with
        | none => simp [run_tactical_analysis_and_store_results, hb, hn, hce]
        | some e1 =>
          cases hce1 : ce 1 with
          | none => simp [run_tactical_analysis_and_store_results, hb, hn, hce, hce1]
          | some e2 => simp [run_tactical_analysis_and_store_results, hb, hn, hce, hce1]
      | error e =>
        cases hce : ce 0 with
        | none => simp [run_tactical_analysis_and_store_results, hb, hn, hce]
        | some msg => simp [run_tactical_analysis_and_store_results, hb, hn, hce]
  · intro e h hn hce
    have hb : (o.content == "") = false := by simpa using h
    simp [run_tactical_analysis_and_store_results, hb, hn, hce]
  · intro rs e1 h hn hce
    have hb : (o.content == "") = false := by simpa using h
    refine ⟨?_, ?_, ?_⟩
    · cases hce1 : ce 1 with
      | none => simp [run_tactical_analysis_and_store_results, hb, hn, hce, hce1]
      | some e2 => simp [run_tactical_analysis_and_store_results, hb, hn, hce, hce1]
    · intro hce1
      simp [run_tactical_analysis_and_store_results, hb, hn, hce, hce1]
    · intro e2 hce1
      simp [run_tactical_analysis_and_store_results, hb, hn, hce, hce1]

/-- Witness for C8 at a concrete run whose first commit fails: exactly one
retry happens and it persists the error marker built from the first commit's
exception. -/
theorem orchestrator_error_recovery_spec_witness :
    (run_tactical_analysis_and_store_results (some sampleOpord) (fun _ => .ok [])
        (fun i => if i = 0 then some "db down" else none)).commitAttempts = 2 ∧
    (run_tactical_analysis_and_store_results (some sampleOpord) (fun _ => .ok [])
        (fun i => if i = 0 then some "db down" else none)).stored =
      some (.errorMarker "db down") :=
  ⟨((orchestrator_error_recovery_spec sampleOpord (fun _ => .ok [])
        (fun i => if i = 0 then some "db down" else none)).2.2 [] "db down"
      (by decide) rfl rfl).1,
    ((orchestrator_error_recovery_spec sampleOpord (fun _ => .ok [])
        (fun i => if i = 0 then some "db down" else none)).2.2 [] "db down"
      (by decide) rfl rfl).2.1 rfl⟩

/-- C9: the analysis endpoint rejects every well-formed request with a hard
HTTP 500 whenever the store is non-empty — not only malformed requests —
because the router still passes the keyword argument `known_task_names`,
which `identify_and_retrieve_tactical_tasks` no longer accepts, so the call
raises `TypeError` before the service body runs and the router's `except`
turns it into a 500.  Evaluated here at a concrete well-formed request. -/
theorem analysis_endpoint_typeerror_bug :
    "known_task_names" ∈ analysis_router_call_kwargs ∧
    "known_task_names" ∉ identify_service_params ∧
    analyze_text_for_tactical_tasks [seizeRecord]
        "The platoon will SEIZE the bridge."
        (.entities [.wellFormed "SEIZE" 17 22]) none = (.httpError 500, false) := by
  refine ⟨by decide, by decide, ?_⟩
  decide

/-- C10 counterexample: a whitespace-only input text is non-empty, yet even
with a store holding no task names the endpoint rejects it with HTTP 400
instead of returning the empty list. -/
theorem analysis_endpoint_blank_text_cex :
    get_all_tactical_task_names [] = [] ∧
    " " ≠ "" ∧
    analyze_text_for_tactical_tasks [] " " (.entities []) none =
      (.httpError 400, false) := by
  refine ⟨rfl, by decide, ?_⟩
  decide

/-- C10 as amended: when the store holds no task names, the endpoint returns
the empty list, without invoking the recognition service (and hence without
calling the generative capability), for every input text that passes the
non-blank request validation. -/
theorem analysis_endpoint_empty_store_spec (db : List TacticalTask) (text : String)
    (resp : GenResponse) (failAt : Option ℕ)
    (hnames : get_all_tactical_task_names db = [])
    (hblank : pyStrip text ≠ "") :
    analyze_text_for_tactical_tasks db text resp failAt = (.ok [], false) := by
  have htext : text ≠ "" := by
    intro h
    exact hblank (by simp [h, pyStrip])
  have h1 : (text == "" || pyStrip text == "") = false := by
    simp [htext, hblank]
  have h2 : (get_all_tactical_task_names db == []) = true := by
    simp [hnames]
  simp [analyze_text_for_tactical_tasks, h1, h2]

/-- Witness for C10-as-amended at a concrete empty store and non-blank text. -/
theorem analysis_endpoint_empty_store_spec_witness :
    analyze_text_for_tactical_tasks [] "Attack at dawn." (.entities []) none =
      (.ok [], false) :=
  analysis_endpoint_empty_store_spec [] "Attack at dawn." (.entities []) none
    rfl (by decide)
